import Mathlib

/-
Shallow embedding of the CytoPy population-merge and batch-effect core
(src/CytoPy/data/populations.py, src/cytopy/flow/utilities.py,
src/cytopy/flow/batch_effects.py).

Python floats are modelled as rationals; numpy arrays as lists; Python
dicts (which preserve insertion order and are only ever extended here) as
association lists; Python `warn(...)` calls as an explicit list of emitted
warning strings; `assert` failures as `Except` errors whose constructors
carry the error kind the specification assigns to the assertion.
External libraries (shapely, scikit-learn, scipy, numpy's transcendental
functions) are opaque collaborators and are passed in as explicit
function parameters, exactly where the source defers to them.
Leading underscores of the Python helper names are dropped (`_merge_index`
becomes `merge_index`, and so on).
-/

/-! ## Data model: populations.py -/

/-- Embedding of `geometry.ThresholdGeom` as used by populations.py:
axes, transforms and the two threshold values. -/
structure ThresholdGeom where
  x : String
  y : String
  transform_x : String
  transform_y : String
  x_threshold : ℚ
  y_threshold : ℚ
  deriving DecidableEq, Repr

/-- Embedding of `geometry.PolygonGeom`: axes, transforms and the boundary
vertex coordinates. -/
structure PolygonGeom where
  x : String
  y : String
  transform_x : String
  transform_y : String
  x_values : List ℚ
  y_values : List ℚ
  deriving DecidableEq, Repr

/-- Tagged union of the two geometry variants stored in `Population.geom`. -/
inductive PopulationGeometry where
  | threshold (g : ThresholdGeom)
  | polygon (g : PolygonGeom)
  deriving DecidableEq, Repr

/-- `left.geom.x` in the source: defined for either variant. -/
def PopulationGeometry.xdim : PopulationGeometry → String
  | .threshold g => g.x
  | .polygon g => g.x

/-- `left.geom.y` in the source. -/
def PopulationGeometry.ydim : PopulationGeometry → String
  | .threshold g => g.y
  | .polygon g => g.y

/-- `left.geom.transform_x` in the source. -/
def PopulationGeometry.tx : PopulationGeometry → String
  | .threshold g => g.transform_x
  | .polygon g => g.transform_x

/-- `left.geom.transform_y` in the source. -/
def PopulationGeometry.ty : PopulationGeometry → String
  | .threshold g => g.transform_y
  | .polygon g => g.transform_y

/-- Embedding of `populations.Cluster` (the fields; the non-persisted
`_index` payload is the `index` field here). -/
structure Cluster where
  cluster_id : String
  meta_label : Option String := none
  n : ℕ := 0
  prop_of_events : ℚ := 0
  tag : String
  index : List ℕ := []
  deriving DecidableEq, Repr

/-- Embedding of `populations.Population`. The `index` field is the
non-persisted `_index` array (set via `kwargs.pop("index")` in
`__init__`, which assigns `self._index` directly and therefore does NOT
run the `index` property setter that would overwrite `n`); `ctrl_index`
is the `_ctrl_index` dict. Fields absent from a constructor call keep
their mongoengine defaults, modelled by the defaults below. -/
structure Population where
  population_name : String
  n : ℕ := 0
  parent : String := "root"
  prop_of_parent : Option ℚ := none
  prop_of_total : Option ℚ := none
  warnings : List String := []
  geom : PopulationGeometry
  clusters : List Cluster := []
  definition : String := ""
  signature : List (String × ℚ) := []
  index : List ℕ := []
  ctrl_index : List (String × List ℕ) := []
  deriving DecidableEq, Repr

/-- Error kinds of the specification, standing for the `AssertionError`s
raised by the merge helpers (each constructor is the kind §7 of the spec
assigns to the corresponding assertion message). -/
inductive MergeError where
  | incompatibleMerge
  | incompatibleGeometry
  | nonOverlappingGeometry
  | ambiguousName
  | emptyInput
  deriving DecidableEq, Repr

/-- Result of one merge call: the post-call state of both argument
populations (Python mutates them in place), the new merged population and
the Python warnings emitted via `warn(...)` during the call. -/
structure MergeOutcome where
  left_out : Population
  right_out : Population
  merged : Population
  emitted : List String
  deriving DecidableEq, Repr

/-- The external shapely operations consumed by populations.py:
`shape.intersects` and `unary_union(...).exterior.coords.xy`. -/
structure SpatialLib where
  intersects : PolygonGeom → PolygonGeom → Bool
  union_exterior : PolygonGeom → PolygonGeom → List ℚ × List ℚ

/-! ## Merge helpers -/

/-- `_merge_index`: `np.unique(np.concatenate([left.index, right.index]))`,
i.e. the sorted deduplicated concatenation of the two event-index arrays
(the sorting algorithm itself is numpy's concern; any sort gives the same
list). -/
def merge_index (left right : Population) : List ℕ :=
  ((left.index ++ right.index).insertionSort (· ≤ ·)).dedup

/-- `_merge_signatures`: `pd.DataFrame([l.signature, r.signature]).mean()`.
pandas' column-wise mean skips missing entries, so a key present in both
signatures maps to the average and a key present in one keeps its value. -/
def merge_signatures (left right : Population) : List (String × ℚ) :=
  ((left.signature.map Prod.fst ++ right.signature.map Prod.fst).dedup).map fun k =>
    match left.signature.lookup k, right.signature.lookup k with
    | some a, some b => (k, (a + b) / 2)
    | some a, none => (k, a)
    | none, some b => (k, b)
    | none, none => (k, 0)

/-- `_merge_thresholds` (populations.py lines 193-220). The two threshold
asserts map to `IncompatibleGeometryError`. Line 202 reads
`left.clusters, right_clusters = [], []`: it clears the clusters of the
LEFT argument in place and binds a throwaway local `right_clusters`, so
the right argument keeps its clusters. The merged population is built
with `n = len(left.index) + len(right.index)` and, because the `index`
kwarg bypasses the property setter (see `Population`), that sum is kept
as `n` even when the two index arrays overlap. A non-threshold geometry
would be a Python `AttributeError`; it is mapped to
`incompatibleGeometry` and is unreachable from `merge_populations`. -/
def merge_thresholds (left right : Population) (new_population_name : String) :
    Except MergeError MergeOutcome :=
  match left.geom, right.geom with
  | .threshold gl, .threshold gr =>
    if gl.x_threshold ≠ gr.x_threshold then .error .incompatibleGeometry
    else if gl.y_threshold ≠ gr.y_threshold then .error .incompatibleGeometry
    else
      let cluster_warn : Bool := !left.clusters.isEmpty || !right.clusters.isEmpty
      let ctrl_warn : Bool := !left.ctrl_index.isEmpty || !right.ctrl_index.isEmpty
      let left_after := if cluster_warn then { left with clusters := [] } else left
      let emitted :=
        (if cluster_warn then
          ["Associated clusters are now void. Repeat clustering on new population"] else []) ++
        (if ctrl_warn then
          ["Associated control indexes are now void. Repeat control gating on new population"]
         else [])
      let new_geom : PopulationGeometry := .threshold
        { x := gl.x, y := gl.y, transform_x := gl.transform_x, transform_y := gl.transform_y,
          x_threshold := gl.x_threshold, y_threshold := gl.y_threshold }
      let new_population : Population :=
        { population_name := new_population_name,
          n := left.index.length + right.index.length,
          parent := left.parent,
          warnings := left.warnings ++ right.warnings ++ ["MERGED POPULATION"],
          index := merge_index left right,
          geom := new_geom,
          definition := left.definition ++ "," ++ right.definition,
          signature := merge_signatures left right }
      .ok { left_out := left_after, right_out := right, merged := new_population,
            emitted := emitted }
  | _, _ => .error .incompatibleGeometry

/-- `_check_overlap` (lines 140-160): requires Polygon geometries (the
isinstance assert maps to `incompatibleMerge`), asks shapely whether the
shapes intersect, and when `error` is set fails on a non-overlap with the
kind `NonOverlappingGeometryError`. -/
def check_overlap (lib : SpatialLib) (left right : Population) (error : Bool := true) :
    Except MergeError Bool :=
  match left.geom, right.geom with
  | .polygon gl, .polygon gr =>
    let overlap := lib.intersects gl gr
    if error && !overlap then .error .nonOverlappingGeometry else .ok overlap
  | _, _ => .error .incompatibleMerge

/-- `_merge_polygons` (lines 223-242): overlap check, then shapely union
of the two shapes; the merged geometry takes the union's exterior
coordinates and left's axes/transforms. -/
def merge_polygons (lib : SpatialLib) (left right : Population)
    (new_population_name : String) : Except MergeError MergeOutcome :=
  match left.geom, right.geom with
  | .polygon gl, .polygon gr =>
    match check_overlap lib left right true with
    | .error e => .error e
    | .ok _ =>
      let xy := lib.union_exterior gl gr
      let new_geom : PopulationGeometry := .polygon
        { x := gl.x, y := gl.y, transform_x := gl.transform_x, transform_y := gl.transform_y,
          x_values := xy.1, y_values := xy.2 }
      let new_population : Population :=
        { population_name := new_population_name,
          n := left.index.length + right.index.length,
          parent := left.parent,
          warnings := left.warnings ++ right.warnings ++ ["MERGED POPULATION"],
          index := merge_index left right,
          geom := new_geom,
          signature := merge_signatures left right }
      .ok { left_out := left, right_out := right, merged := new_population, emitted := [] }
  | _, _ => .error .incompatibleMerge

/-- `_check_transforms_dimensions` (lines 163-180): the four asserts on
transforms and axes; the spec files them under `IncompatibleMergeError`. -/
def check_transforms_dimensions (left right : Population) : Except MergeError Unit :=
  if left.geom.tx ≠ right.geom.tx then .error .incompatibleMerge
  else if left.geom.ty ≠ right.geom.ty then .error .incompatibleMerge
  else if left.geom.xdim ≠ right.geom.xdim then .error .incompatibleMerge
  else if left.geom.ydim ≠ right.geom.ydim then .error .incompatibleMerge
  else .ok ()

/-- `isinstance(left.geom, type(right.geom))` for the two variants. -/
def same_geom_type : PopulationGeometry → PopulationGeometry → Bool
  | .threshold _, .threshold _ => true
  | .polygon _, .polygon _ => true
  | _, _ => false

/-- Python's `new_population_name or f"merge_..."`: `or` also replaces an
empty (falsy) string by the default. -/
def py_name_or (v : Option String) (default : String) : String :=
  match v with
  | none => default
  | some s => if s = "" then default else s

/-- `merge_populations` (lines 245-254): transform/axis checks, default
name, parent and geometry-type asserts (kind `IncompatibleMergeError`),
then dispatch on the geometry variant. -/
def merge_populations (lib : SpatialLib) (left right : Population)
    (new_population_name : Option String) : Except MergeError MergeOutcome :=
  match check_transforms_dimensions left right with
  | .error e => .error e
  | .ok _ =>
    let name := py_name_or new_population_name
      ("merge_" ++ left.population_name ++ "_" ++ right.population_name)
    if left.parent ≠ right.parent then .error .incompatibleMerge
    else if ¬ same_geom_type left.geom right.geom then .error .incompatibleMerge
    else match left.geom with
      | .threshold _ => merge_thresholds left right name
      | .polygon _ => merge_polygons lib left right name

/-- `merge_multiple_populations` (lines 257-265): with no explicit name
all inputs must share one population name (the assert maps to
`AmbiguousNameError`); the result is `reduce` — a left fold of pairwise
`merge_populations` calls in list order — renamed at the end. An empty
input list always raises in Python (either the name assert or `reduce`
on an empty sequence) and is mapped to `emptyInput`. -/
def merge_multiple_populations (lib : SpatialLib) (populations : List Population)
    (new_population_name : Option String) : Except MergeError Population :=
  match populations with
  | [] => .error .emptyInput
  | p :: rest =>
    if new_population_name = none ∧
        ((p :: rest).map Population.population_name).dedup.length ≠ 1 then
      .error .ambiguousName
    else
      let name := py_name_or new_population_name p.population_name
      match rest.foldlM
          (fun acc q => Except.map MergeOutcome.merged (merge_populations lib acc q none)) p with
      | .error e => .error e
      | .ok merged => .ok { merged with population_name := name }

/-! ## Data model: utilities.py and batch_effects.py -/

/-- A density estimate: the numeric sequence returned by the estimator. -/
abbrev DensitySeq := List ℚ

/-- A per-sample measurement table: rows of per-feature values. -/
abbrev SampleTable := List (List ℚ)

/-- A Python float value as seen by the divergence helpers: a finite
value, an infinity, or numpy's nan. -/
inductive PyFloat where
  | fin (x : ℚ)
  | inf
  | ninf
  | nan
  deriving DecidableEq, Repr

/-- `np.linspace a b n`: `n` evenly spaced points from `a` to `b`
(a single point stays at `a`). -/
def np_linspace (a b : ℚ) (n : ℕ) : List ℚ :=
  (List.range n).map
    (fun i : ℕ => if n ≤ 1 then a else a + (b - a) * (i : ℚ) / ((n : ℚ) - 1))

/-- Flattening of a 2-D table, as numpy's quantile and min/max reductions
see it when no axis is given. -/
def np_flatten (x : SampleTable) : List ℚ := x.flatten

/-- `np.quantile` with the default linear interpolation on the sorted
flattened values; `none` on an empty input (numpy raises there). -/
def np_quantile (xs : List ℚ) (p : ℚ) : Option ℚ :=
  let s := xs.insertionSort (· ≤ ·)
  if s.isEmpty then none
  else
    let h : ℚ := p * ((s.length : ℚ) - 1)
    let i : ℕ := ⌊h⌋.toNat
    let lo := s.getD i 0
    let hi := s.getD (i + 1) lo
    some (lo + (h - (i : ℚ)) * (hi - lo))

/-- `np.amin(x)`: the minimum over the WHOLE table (no axis argument);
junk value 0 on an empty table, which the callers below never reach. -/
def np_amin (x : SampleTable) : ℚ :=
  match np_flatten x with
  | [] => 0
  | v :: vs => vs.foldl min v

/-- `np.amax(x)`: the maximum over the WHOLE table. -/
def np_amax (x : SampleTable) : ℚ :=
  match np_flatten x with
  | [] => 0
  | v :: vs => vs.foldl max v

/-- `x.shape[1]`: the column count of the table. -/
def num_cols (x : SampleTable) : ℕ := (x.headD []).length

/-- `np.array(...).T` on a rectangular array given as rows. -/
def np_transpose (m : SampleTable) : SampleTable :=
  (List.range ((m.headD []).length)).map (fun j => m.map (fun row => row.getD j 0))

/-- CPython semantics of line 95's `bandwidth_search == 0`: the left
operand is a Python list and the right an int, `list.__eq__` returns
`NotImplemented` and the comparison is always `False`. -/
def py_list_eq_zero (_bs : List ℚ) : Bool := false

/-- Lines 94-96 of utilities.py: the default bandwidth-search bounds, the
5th and 95th quantile of the flattened values, with the (dead, see
`py_list_eq_zero`) attempt to floor the lower bound at 0.01. -/
def cross_val_bounds (x : SampleTable) : ℚ × ℚ :=
  let lo := (np_quantile (np_flatten x) (1 / 20)).getD 0
  let hi := (np_quantile (np_flatten x) (19 / 20)).getD 0
  let lo := if py_list_eq_zero [lo, hi] then (1 / 100 : ℚ) else lo
  (lo, hi)

/-- The `x_grid` of line 105: one row PER column of `x`, each row the SAME
`np.linspace(np.amin(x), np.amax(x), n)` over the whole table's global
min and max. -/
def x_grid (x : SampleTable) (n : ℕ) : SampleTable :=
  (List.range (num_cols x)).map (fun _ => np_linspace (np_amin x) (np_amax x) n)

/-- The grid §4.1 of the spec describes, for comparison with `x_grid`:
for each dimension independently, a linear grid from THAT dimension's own
minimum to its own maximum value. -/
def x_grid_spec (x : SampleTable) (n : ℕ) : SampleTable :=
  (List.range (num_cols x)).map (fun j =>
    let col := x.map (fun row => row.getD j 0)
    np_linspace
      (match col with | [] => 0 | v :: vs => vs.foldl min v)
      (match col with | [] => 0 | v :: vs => vs.foldl max v)
      n)

/-- The `bandwidth` argument of `kde_multivariant`: a string or a float. -/
inductive PyBandwidth where
  | str (s : String)
  | val (q : ℚ)
  deriving DecidableEq, Repr

/-- Error kinds of §7 of the spec for the density estimator. The source
performs one assert of its own (the bandwidth string, mapped to
`invalidBandwidthString`); the other two kinds stand for the validation
errors of the external libraries the source calls into:
`insufficientData` for numpy's quantile and scikit-learn's
`GridSearchCV(cv=20)`/`fit` rejecting an empty or too-small table, and
`invalidBandwidth` for scikit-learn's `KernelDensity`, whose constructor
requires a positive bandwidth. -/
inductive KDEError where
  | insufficientData
  | invalidBandwidth
  | invalidBandwidthString
  deriving DecidableEq, Repr

/-- The opaque numeric externals of `kde_multivariant`: the bandwidth that
`GridSearchCV` selects from a candidate grid, the fitted model's
`score_samples` log-density at one point (given the training table, the
bandwidth and the kernel name), and `np.exp`. -/
structure KDELib where
  best_bandwidth : SampleTable → List ℚ → ℚ
  score_sample : SampleTable → ℚ → String → List ℚ → ℚ
  np_exp : ℚ → ℚ

/-- `kde_multivariant` (utilities.py lines 89-109). Control flow in
source order: the bandwidth-string assert; on the `cross_val` path the
quantile bounds (numpy raises on an empty table) and the 20-fold grid
search (which needs at least 20 rows); then `KernelDensity(bandwidth=...)`
(positive-bandwidth validation in the constructor) and `fit` (rejects an
empty table); finally evaluation on `x_grid.T` when a grid size is given,
else at the sample rows, exponentiated from log space. -/
def kde_multivariant (lib : KDELib) (x : SampleTable) (bandwidth : PyBandwidth)
    (x_grid_n : Option ℕ) (kernel : String) : Except KDEError (List ℚ) :=
  let fitted : Except KDEError ℚ :=
    match bandwidth with
    | .str s =>
      if s ≠ "cross_val" then .error .invalidBandwidthString
      else if x.isEmpty then .error .insufficientData
      else if x.length < 20 then .error .insufficientData
      else
        let bounds := cross_val_bounds x
        .ok (lib.best_bandwidth x (np_linspace bounds.1 bounds.2 30))
    | .val b => .ok b
  match fitted with
  | .error e => .error e
  | .ok bw =>
    if bw ≤ 0 then .error .invalidBandwidth
    else if x.isEmpty then .error .insufficientData
    else match x_grid_n with
      | some n =>
        .ok ((np_transpose (x_grid x n)).map
          (fun pt => lib.np_exp (lib.score_sample x bw kernel pt)))
      | none =>
        .ok (x.map (fun pt => lib.np_exp (lib.score_sample x bw kernel pt)))

/-! ## Divergence helpers and the analysis session: batch_effects.py -/

/-- The external scipy/numpy pieces of batch_effects.py:
`scipy.spatial.distance.jensenshannon`, `scipy.stats.entropy` and
`np.sqrt`, plus the per-sample density estimator
`partial(kde_multivariant, bandwidth='cross_val', kernel=...)` used by
`calc_divergence`. -/
structure ExternalLib where
  jsd : DensitySeq → DensitySeq → PyFloat
  kl : DensitySeq → DensitySeq → PyFloat
  np_sqrt : ℚ → ℚ
  kde : SampleTable → DensitySeq

/-- `batch_effects.jsd_divergence` (lines 20-25): the raw library value;
the `is not None` assert (it always passes on a float, kept implicit);
`div in [np.inf, -np.inf]` clamps either infinity to 1; everything else
(nan included) is returned unchanged. The second component is the list of
Python warnings the call emits: the function never emits one. -/
def jsd_divergence (lib : ExternalLib) (x y : DensitySeq) : PyFloat × List String :=
  match lib.jsd x y with
  | .inf => (.fin 1, [])
  | .ninf => (.fin 1, [])
  | .fin v => (.fin v, [])
  | .nan => (.nan, [])

/-- `batch_effects.kl_divergence` (lines 28-31): the raw library value,
returned unchanged after the always-true `is not None` assert. -/
def kl_divergence (lib : ExternalLib) (x y : DensitySeq) : PyFloat :=
  lib.kl x y

/-- `utilities.hellinger_dot` (lines 65-74) with `np.sqrt` kept opaque:
`z = sqrt(p) - sqrt(q)` elementwise, then `sqrt(z @ z / 2)`. -/
def hellinger_dot (np_sqrt : ℚ → ℚ) (p q : DensitySeq) : ℚ :=
  let z := List.zipWith (fun a b => np_sqrt a - np_sqrt b) p q
  np_sqrt ((z.foldl (fun acc v => acc + v * v) 0) / 2)

/-- The state an `EvaluateBatchEffects` session carries: the loaded
per-sample tables (`self.data`) and the per-sample density cache
(`self.kde_cache`), an insertion-ordered dict modelled as an association
list. -/
structure SessionState where
  data : List (String × SampleTable)
  kde_cache : List (String × DensitySeq)
  deriving DecidableEq, Repr

/-- `load_data` (lines 52-73): resets `kde_cache` to an empty dict and
loads the sample tables. The per-sample loading itself
(`ordered_load_transform` over a worker pool, dropping samples that fail
to load) is the external data-loading collaborator; its surviving
`(sample_id, table)` pairs are the parameter. -/
def load_data (loaded : List (String × SampleTable)) : SessionState :=
  { data := loaded, kde_cache := [] }

/-- `calc_divergence` (lines 252-305). `none` models the Python
exceptions: the divergence-method assert of line 271 and the
`self.data[target_id]` KeyError of line 282. Otherwise, in source order:
estimate the target's density only if its id is absent from the cache
(appending to the dict); estimate densities for the comparison samples
whose ids are absent from the cache and append them; then return one
`(name, divergence(target, q))` pair for EVERY entry of the cache dict
(`self.kde_cache.items()`), not merely for the requested comparisons. -/
def calc_divergence (lib : ExternalLib) (st : SessionState) (target_id : String)
    (comparisons : List String) (divergence_method : String) :
    Option (SessionState × List (String × PyFloat)) :=
  if divergence_method ∉ (["jsd", "kl", "hellinger"] : List String) then none
  else
    let cache1 : Option (List (String × DensitySeq)) :=
      if (st.kde_cache.lookup target_id).isSome then some st.kde_cache
      else (st.data.lookup target_id).map
        (fun t => st.kde_cache ++ [(target_id, lib.kde t)])
    match cache1 with
    | none => none
    | some cache1 =>
      let samples := st.data.filter
        (fun nt => comparisons.contains nt.1 && (cache1.lookup nt.1).isNone)
      let cache2 := cache1 ++ samples.map (fun nt => (nt.1, lib.kde nt.2))
      match cache2.lookup target_id with
      | none => none
      | some p =>
        let f : DensitySeq → DensitySeq → PyFloat :=
          if divergence_method = "jsd" then fun a b => (jsd_divergence lib a b).1
          else if divergence_method = "kl" then fun a b => kl_divergence lib a b
          else fun a b => .fin (hellinger_dot lib.np_sqrt a b)
        some ({ data := st.data, kde_cache := cache2 },
          cache2.map (fun nq => (nq.1, f p nq.2)))

/-! ## Concrete fixtures shared by the theorems below -/

deriving instance DecidableEq for Except

/-- A shapely stand-in whose intersection test always answers `false`. -/
def no_overlap_lib : SpatialLib :=
  { intersects := fun _ _ => false, union_exterior := fun _ _ => ([], []) }

/-- A shared threshold geometry. -/
def tg : ThresholdGeom :=
  { x := "FSC-A", y := "SSC-A", transform_x := "logicle", transform_y := "logicle",
    x_threshold := 1, y_threshold := 2 }

/-- Population with event indices {1,2,3}. -/
def pop1 : Population :=
  { population_name := "P1", n := 3, parent := "root", geom := .threshold tg,
    definition := "++", index := [1, 2, 3] }

/-- Population with event indices {3,4,5}. -/
def pop2 : Population :=
  { population_name := "P2", n := 3, parent := "root", geom := .threshold tg,
    definition := "--", index := [3, 4, 5] }

/-! ## Theorems -/

/-- C1: merging the populations with index sets {1,2,3} and {3,4,5} does
produce the union index set [1,2,3,4,5] and the "MERGED POPULATION"
warning, but the merged record's size field `n` is 6 — the sum
`len(left.index) + len(right.index)` of line 213, the duplicate index 3
counted twice — not the cardinality 5 of the union that the claim (and
the `index` property setter's own invariant `n = len(idx)`) demands. -/
theorem merge_populations_overlapping_size_bug :
    (merge_populations no_overlap_lib pop1 pop2 none).map
        (fun o => (o.merged.index, o.merged.n, o.merged.warnings)) =
      .ok ([1, 2, 3, 4, 5], 6, ["MERGED POPULATION"]) ∧
    (pop1.index.toFinset ∪ pop2.index.toFinset).card = 5 := by
  constructor
  · decide
  · decide

/-- C9: during a threshold merge in which either input carries clusters,
line 202 (`left.clusters, right_clusters = [], []`) empties the cluster
list of the LEFT input in place (the second target is a throwaway local
variable), leaves the right input untouched, and the merged record is
still produced. -/
theorem merge_thresholds_clears_left_clusters
    (l r : Population) (gl gr : ThresholdGeom) (name : String)
    (hl : l.geom = .threshold gl) (hr : r.geom = .threshold gr)
    (hxt : gl.x_threshold = gr.x_threshold) (hyt : gl.y_threshold = gr.y_threshold)
    (hc : l.clusters ≠ [] ∨ r.clusters ≠ []) :
    (merge_thresholds l r name).map (fun out => (out.left_out, out.right_out)) =
      .ok ({ l with clusters := [] }, r) := by
  have hcw : (!l.clusters.isEmpty || !r.clusters.isEmpty) = true := by
    rcases hc with h | h
    · cases hcl : l.clusters with
      | nil => exact absurd hcl h
      | cons a t => simp [hcl]
    · cases hcr : r.clusters with
      | nil => exact absurd hcr h
      | cons a t => simp [hcr]
  have hx' : ¬ gl.x_threshold ≠ gr.x_threshold := by simp [hxt]
  have hy' : ¬ gl.y_threshold ≠ gr.y_threshold := by simp [hyt]
  unfold merge_thresholds
  rw [hl, hr]
  simp [hx', hy', hcw]
  rfl

/-- Fixture cluster for the mutation theorem's witness. -/
def clus : Cluster := { cluster_id := "c1", tag := "t1", n := 1, index := [1] }

/-- A population that carries a cluster. -/
def pop_c : Population :=
  { population_name := "C", parent := "root", geom := .threshold tg,
    clusters := [clus], index := [1, 2] }

theorem merge_thresholds_clears_left_clusters_witness :
    (merge_thresholds pop_c pop2 "m").map (fun out => (out.left_out, out.right_out)) =
      .ok ({ pop_c with clusters := [] }, pop2) :=
  merge_thresholds_clears_left_clusters pop_c pop2 tg tg "m" rfl rfl rfl rfl
    (Or.inl (by decide))

/-- C4: for two populations with matching axes, transforms and parent,
a threshold merge with differing x (or y) thresholds fails with the
`IncompatibleGeometryError` kind, and a polygon merge whose boundaries do
not intersect (per the spatial library) fails with the
`NonOverlappingGeometryError` kind; an `Except.error` result carries no
merged population. -/
theorem merge_geometry_failure_cases
    (lib : SpatialLib) (l r : Population) (nm : Option String)
    (htx : l.geom.tx = r.geom.tx) (hty : l.geom.ty = r.geom.ty)
    (hx : l.geom.xdim = r.geom.xdim) (hy : l.geom.ydim = r.geom.ydim)
    (hp : l.parent = r.parent) :
    (∀ gl gr, l.geom = .threshold gl → r.geom = .threshold gr →
      gl.x_threshold ≠ gr.x_threshold ∨ gl.y_threshold ≠ gr.y_threshold →
      merge_populations lib l r nm = .error .incompatibleGeometry) ∧
    (∀ gl gr, l.geom = .polygon gl → r.geom = .polygon gr →
      lib.intersects gl gr = false →
      merge_populations lib l r nm = .error .nonOverlappingGeometry) := by
  have hck : check_transforms_dimensions l r = .ok () := by
    unfold check_transforms_dimensions
    rw [htx, hty, hx, hy]
    simp
  have hp' : ¬ l.parent ≠ r.parent := by simp [hp]
  constructor
  · rintro gl gr hl hr hne
    unfold merge_populations
    rw [hck]
    simp only [hp', if_false, ite_false]
    rw [hl, hr]
    simp only [same_geom_type, not_true_eq_false, if_false, ite_false, Bool.not_true]
    show merge_thresholds l r _ = _
    unfold merge_thresholds
    rw [hl, hr]
    by_cases hxth : gl.x_threshold ≠ gr.x_threshold
    · simp [hxth]
    · have hyth : gl.y_threshold ≠ gr.y_threshold := hne.resolve_left hxth
      simp [hxth, hyth]
  · rintro gl gr hl hr hint
    unfold merge_populations
    rw [hck]
    simp only [hp', if_false, ite_false]
    rw [hl, hr]
    simp only [same_geom_type, not_true_eq_false, if_false, ite_false, Bool.not_true]
    show merge_polygons lib l r _ = _
    unfold merge_polygons check_overlap
    rw [hl, hr]
    simp [hint]

/-- A threshold geometry whose x threshold differs from `tg`. -/
def tg2 : ThresholdGeom := { tg with x_threshold := 5 }

/-- Threshold population incompatible with `pop1`. -/
def pop_tm : Population :=
  { population_name := "T2", parent := "root", geom := .threshold tg2, index := [7] }

/-- A small triangle. -/
def pg1 : PolygonGeom :=
  { x := "FSC-A", y := "SSC-A", transform_x := "logicle", transform_y := "logicle",
    x_values := [0, 1, 1], y_values := [0, 0, 1] }

/-- A far-away triangle. -/
def pg2 : PolygonGeom := { pg1 with x_values := [5, 6, 6], y_values := [5, 5, 6] }

/-- Polygon population on `pg1`. -/
def pop_p1 : Population := { population_name := "Q1", parent := "root", geom := .polygon pg1 }

/-- Polygon population on `pg2`. -/
def pop_p2 : Population := { population_name := "Q2", parent := "root", geom := .polygon pg2 }

theorem merge_geometry_failure_cases_witness :
    merge_populations no_overlap_lib pop1 pop_tm none = .error .incompatibleGeometry ∧
    merge_populations no_overlap_lib pop_p1 pop_p2 none = .error .nonOverlappingGeometry :=
  ⟨(merge_geometry_failure_cases no_overlap_lib pop1 pop_tm none rfl rfl rfl rfl rfl).1
      tg tg2 rfl rfl (Or.inl (by decide)),
   (merge_geometry_failure_cases no_overlap_lib pop_p1 pop_p2 none rfl rfl rfl rfl rfl).2
      pg1 pg2 rfl rfl rfl⟩

/-- Helper: deduplicating a list whose elements all equal its head gives
the singleton head. -/
theorem dedup_cons_of_all_eq {α : Type} [DecidableEq α] (a : α) (l : List α)
    (h : ∀ x ∈ l, x = a) : (a :: l).dedup = [a] := by
  induction l with
  | nil => simp
  | cons b t ih =>
    have hb : b = a := h b (List.mem_cons_self b t)
    subst hb
    rw [List.dedup_cons_of_mem (List.mem_cons_self b t)]
    exact ih (fun x hx => h x (List.mem_cons_of_mem b hx))

/-- C7: `merge_multiple_populations` on a non-empty list with no explicit
new name fails with the `AmbiguousNameError` kind as soon as two inputs
have different population names; and when all inputs share the head's
name, its result is exactly the left fold of pairwise `merge_populations`
calls in list order, renamed to the shared name. -/
theorem merge_multiple_name_policy (lib : SpatialLib) (p : Population)
    (rest : List Population) :
    ((∃ q ∈ p :: rest, q.population_name ≠ p.population_name) →
      merge_multiple_populations lib (p :: rest) none = .error .ambiguousName) ∧
    (∀ m : Population, (∀ q ∈ rest, q.population_name = p.population_name) →
      rest.foldlM
          (fun acc q => Except.map MergeOutcome.merged (merge_populations lib acc q none)) p
        = .ok m →
      merge_multiple_populations lib (p :: rest) none
        = .ok { m with population_name := p.population_name }) := by
  constructor
  · rintro ⟨q, hq, hne⟩
    have hlen : ((p :: rest).map Population.population_name).dedup.length ≠ 1 := by
      intro hlen1
      obtain ⟨z, hz⟩ := List.length_eq_one.mp hlen1
      have hqmem : q.population_name ∈ ((p :: rest).map Population.population_name).dedup :=
        List.mem_dedup.mpr (List.mem_map_of_mem Population.population_name hq)
      have hpmem : p.population_name ∈ ((p :: rest).map Population.population_name).dedup :=
        List.mem_dedup.mpr
          (List.mem_map_of_mem Population.population_name (List.mem_cons_self p rest))
      rw [hz] at hqmem hpmem
      simp only [List.mem_singleton] at hqmem hpmem
      exact hne (hqmem.trans hpmem.symm)
    unfold merge_multiple_populations
    dsimp only
    rw [if_pos ⟨rfl, hlen⟩]
  · intro m hall hfold
    have hded : ((p :: rest).map Population.population_name).dedup
        = [p.population_name] := by
      rw [List.map_cons]
      exact dedup_cons_of_all_eq p.population_name (rest.map Population.population_name)
        (by
          intro x hx
          obtain ⟨q, hq, hqx⟩ := List.mem_map.mp hx
          rw [← hqx]
          exact hall q hq)
    have hcond : ¬ ((none : Option String) = none ∧
        ((p :: rest).map Population.population_name).dedup.length ≠ 1) := by
      rw [hded]
      simp
    unfold merge_multiple_populations
    dsimp only
    rw [if_neg hcond, hfold]
    rfl

/-- Same-named population "A", indices {1}. -/
def popA1 : Population :=
  { population_name := "A", parent := "root", geom := .threshold tg, index := [1] }

/-- Same-named population "A", indices {2}. -/
def popA2 : Population :=
  { population_name := "A", parent := "root", geom := .threshold tg, index := [2] }

/-- Same-named population "A", indices {3}. -/
def popA3 : Population :=
  { population_name := "A", parent := "root", geom := .threshold tg, index := [3] }

/-- Differently-named populations for the ambiguous case. -/
def popB1 : Population :=
  { population_name := "B1", parent := "root", geom := .threshold tg, index := [1] }

def popB2 : Population :=
  { population_name := "B2", parent := "root", geom := .threshold tg, index := [2] }

def popB3 : Population :=
  { population_name := "B3", parent := "root", geom := .threshold tg, index := [3] }

/-- The left fold of pairwise merges over the three "A" populations,
extracted as a value (the fold is `Except.ok` on these inputs). -/
def mergedA : Population :=
  (([popA2, popA3].foldlM
      (fun acc q => Except.map MergeOutcome.merged (merge_populations no_overlap_lib acc q none))
      popA1 : Except MergeError Population)).toOption.getD popA1

theorem merge_multiple_name_policy_witness :
    merge_multiple_populations no_overlap_lib [popB1, popB2, popB3] none
        = .error .ambiguousName ∧
    merge_multiple_populations no_overlap_lib [popA1, popA2, popA3] none
        = .ok { mergedA with population_name := "A" } := by
  constructor
  · exact (merge_multiple_name_policy no_overlap_lib popB1 [popB2, popB3]).1
      ⟨popB2, by simp, by decide⟩
  · exact (merge_multiple_name_policy no_overlap_lib popA1 [popA2, popA3]).2
      mergedA (by decide) (by decide)

/-- Sorting an all-zero list is the identity. -/
theorem insertionSort_replicate_zero (n : ℕ) :
    (List.replicate n (0 : ℚ)).insertionSort (· ≤ ·) = List.replicate n 0 := by
  induction n with
  | zero => rfl
  | succ k ih =>
    rw [List.replicate_succ]
    show List.orderedInsert (· ≤ ·) 0 ((List.replicate k (0 : ℚ)).insertionSort (· ≤ ·))
      = List.replicate (k + 1) 0
    rw [ih]
    cases k with
    | zero => rfl
    | succ j =>
      rw [List.replicate_succ]
      show (if (0 : ℚ) ≤ 0 then (0 : ℚ) :: 0 :: List.replicate j 0
        else 0 :: List.orderedInsert (· ≤ ·) 0 (List.replicate j 0)) = _
      rw [if_pos le_rfl, List.replicate_succ, List.replicate_succ]

/-- `getD` on an all-zero list with default 0 is 0 at every index. -/
theorem getD_replicate_zero (n i : ℕ) : (List.replicate n (0 : ℚ)).getD i 0 = 0 := by
  induction n generalizing i with
  | zero => rfl
  | succ k ih =>
    rw [List.replicate_succ]
    cases i with
    | zero => rfl
    | succ j => exact ih j

/-- Every quantile of a non-empty all-zero sample is 0. -/
theorem np_quantile_replicate_zero (n : ℕ) (hn : n ≠ 0) (p : ℚ) :
    np_quantile (List.replicate n (0 : ℚ)) p = some 0 := by
  unfold np_quantile
  rw [insertionSort_replicate_zero]
  have hne : (List.replicate n (0 : ℚ)).isEmpty = false := by
    cases n with
    | zero => exact absurd rfl hn
    | succ k => rw [List.replicate_succ]; rfl
  simp only [hne, Bool.false_eq_true, if_false, ite_false, getD_replicate_zero]
  simp

/-- Flattening n copies of a one-entry row gives n copies of the entry. -/
theorem np_flatten_replicate (n : ℕ) (a : ℚ) :
    np_flatten (List.replicate n [a]) = List.replicate n a := by
  induction n with
  | zero => rfl
  | succ k ih =>
    rw [List.replicate_succ, List.replicate_succ, ← ih]
    rfl

/-- C5: on the 20-row all-zero table — whose flattened 5th-to-95th
percentile range collapses to zero — the automatic bandwidth search
bounds come out as (0, 0): the lower bound stays 0, NOT the 0.01 the
claim (and the dead line 96) intends, because line 95 compares the
Python list `bandwidth_search` with the int 0, which is always `False`
(see `py_list_eq_zero`). The second conjunct: on EVERY input the lower
bound is the raw 5th percentile, the floor is never applied. -/
theorem cross_val_bandwidth_floor_dead :
    cross_val_bounds (List.replicate 20 [(0 : ℚ)]) = (0, 0) ∧
    ∀ x : SampleTable,
      (cross_val_bounds x).1 = (np_quantile (np_flatten x) (1 / 20)).getD 0 := by
  constructor
  · unfold cross_val_bounds
    rw [np_flatten_replicate]
    rw [np_quantile_replicate_zero 20 (by norm_num) (1 / 20),
      np_quantile_replicate_zero 20 (by norm_num) (19 / 20)]
    rfl
  · intro x
    rfl

/-- C6: density estimation on a zero-row table fails with the
`InsufficientDataError` kind — on the `cross_val` path numpy's quantile
of an empty array raises before anything else, and on the explicit-
bandwidth path `fit` rejects the empty table — and an explicit
non-positive bandwidth fails with the `InvalidBandwidthError` kind
(`KernelDensity` requires a positive bandwidth, checked before `fit`). -/
theorem kde_multivariant_error_cases (lib : KDELib) (g : Option ℕ) (kernel : String) :
    kde_multivariant lib [] (.str "cross_val") g kernel = .error .insufficientData ∧
    (∀ b : ℚ, 0 < b →
      kde_multivariant lib [] (.val b) g kernel = .error .insufficientData) ∧
    (∀ (x : SampleTable) (b : ℚ), b ≤ 0 →
      kde_multivariant lib x (.val b) g kernel = .error .invalidBandwidth) := by
  refine ⟨rfl, ?_, ?_⟩
  · intro b hb
    unfold kde_multivariant
    dsimp only
    rw [if_neg (not_le.mpr hb)]
    rfl
  · intro x b hb
    unfold kde_multivariant
    dsimp only
    rw [if_pos hb]

/-- A trivial stand-in for the scikit-learn numerics. -/
def triv_kde : KDELib :=
  { best_bandwidth := fun _ _ => 1, score_sample := fun _ _ _ _ => 0, np_exp := fun q => q }

theorem kde_multivariant_error_cases_witness :
    kde_multivariant triv_kde [] (.val 1) none "gaussian" = .error .insufficientData ∧
    kde_multivariant triv_kde [[1]] (.val 0) none "gaussian" = .error .invalidBandwidth :=
  ⟨(kde_multivariant_error_cases triv_kde none "gaussian").2.1 1 (by decide),
   (kde_multivariant_error_cases triv_kde none "gaussian").2.2 [[1]] 0 (by decide)⟩

/-- C2 counterexample: on the table [[0,10],[1,20]] (column mins 0 and
10, maxes 1 and 20), line 105 builds for EVERY dimension the same grid
[0,10,20] over the global `np.amin`/`np.amax` of the whole table; the
per-dimension grid the claim describes would be [[0,1/2,1],[10,15,20]].
The two differ. -/
theorem x_grid_not_per_dimension :
    x_grid [[0, 10], [1, 20]] 3 = [[0, 10, 20], [0, 10, 20]] ∧
    x_grid_spec [[0, 10], [1, 20]] 3 = [[0, 1 / 2, 1], [10, 15, 20]] ∧
    x_grid [[0, 10], [1, 20]] 3 ≠ x_grid_spec [[0, 10], [1, 20]] 3 := by
  have hr3 : List.range 3 = [0, 1, 2] := rfl
  have hr2 : List.range 2 = [0, 1] := rfl
  have h1 : x_grid [[0, 10], [1, 20]] 3 = [[0, 10, 20], [0, 10, 20]] := by
    norm_num [x_grid, np_linspace, np_amin, np_amax, np_flatten, num_cols, hr3, hr2,
      min_def, max_def]
  have h2 : x_grid_spec [[0, 10], [1, 20]] 3 = [[0, 1 / 2, 1], [10, 15, 20]] := by
    norm_num [x_grid_spec, np_linspace, num_cols, hr3, hr2, min_def, max_def, List.getD]
  refine ⟨h1, h2, ?_⟩
  rw [h1, h2]
  norm_num

/-- Mapping an index function over the index range of a list is mapping
over the list. -/
theorem range_length_map_getD {α β : Type} (l : List α) (d : α) (f : α → β) :
    (List.range l.length).map (fun j => f (l.getD j d)) = l.map f := by
  induction l with
  | nil => rfl
  | cons a t ih =>
    rw [List.length_cons, List.range_succ_eq_map, List.map_cons, List.map_map]
    have hcomp : ((fun j => f ((a :: t).getD j d)) ∘ Nat.succ) = fun j => f (t.getD j d) :=
      funext fun j => rfl
    rw [hcomp, ih]
    rfl

/-- Transposing d copies of one row yields, for each entry of the row, a
point with that entry in all d coordinates. -/
theorem np_transpose_replicate_row (d : ℕ) (hd : d ≠ 0) (ls : List ℚ) :
    np_transpose (List.replicate d ls) = ls.map (fun g => List.replicate d g) := by
  unfold np_transpose
  have hhead : (List.replicate d ls).headD [] = ls := by
    cases d with
    | zero => exact absurd rfl hd
    | succ k => rw [List.replicate_succ]; rfl
  rw [hhead]
  calc (List.range ls.length).map (fun j => (List.replicate d ls).map fun row => row.getD j 0)
      = (List.range ls.length).map (fun j => List.replicate d (ls.getD j 0)) := by
        simp [List.map_replicate]
    _ = ls.map (fun g => List.replicate d g) :=
        range_length_map_getD ls 0 (fun g => List.replicate d g)

/-- `np.linspace` returns the requested number of points. -/
theorem np_linspace_length (a b : ℚ) (n : ℕ) : (np_linspace a b n).length = n := by
  unfold np_linspace
  rw [List.length_map, List.length_range]

/-- The evaluation grid is one identical global-bounds row per column. -/
theorem x_grid_rows (x : SampleTable) (n : ℕ) :
    x_grid x n = List.replicate (num_cols x) (np_linspace (np_amin x) (np_amax x) n) := by
  unfold x_grid
  rw [List.map_const', List.length_range]

/-- C2 (amended): with a positive explicit bandwidth and a non-empty
table, grid evaluation returns exactly `grid_size` density values, each
the exponentiated log-density at a point whose EVERY coordinate is the
same value drawn from `np.linspace(np.amin(x), np.amax(x), grid_size)` —
the grid is built from the global min and max of the whole table, the
same linear grid for every dimension, not per-dimension bounds. -/
theorem kde_grid_global_bounds (lib : KDELib) (x : SampleTable) (n : ℕ) (b : ℚ)
    (kernel : String) (hb : 0 < b) (hx : x ≠ []) (hd : num_cols x ≠ 0) :
    kde_multivariant lib x (.val b) (some n) kernel =
      .ok ((np_linspace (np_amin x) (np_amax x) n).map
        (fun g => lib.np_exp (lib.score_sample x b kernel (List.replicate (num_cols x) g)))) ∧
    ((np_linspace (np_amin x) (np_amax x) n).map
        (fun g => lib.np_exp (lib.score_sample x b kernel (List.replicate (num_cols x) g)))).length
      = n := by
  have hxe : x.isEmpty = false := by
    cases x with
    | nil => exact absurd rfl hx
    | cons a t => rfl
  constructor
  · unfold kde_multivariant
    dsimp only
    rw [if_neg (not_le.mpr hb), hxe]
    simp only [Bool.false_eq_true, if_false, ite_false]
    rw [x_grid_rows, np_transpose_replicate_row (num_cols x) hd, List.map_map]
    rfl
  · rw [List.length_map, np_linspace_length]

theorem kde_grid_global_bounds_witness :
    kde_multivariant triv_kde [[0, 10], [1, 20]] (.val 1) (some 3) "gaussian" =
      .ok ((np_linspace (np_amin [[0, 10], [1, 20]]) (np_amax [[0, 10], [1, 20]]) 3).map
        (fun g => triv_kde.np_exp (triv_kde.score_sample [[0, 10], [1, 20]] 1 "gaussian"
          (List.replicate (num_cols [[0, 10], [1, 20]]) g)))) ∧
    ((np_linspace (np_amin [[0, 10], [1, 20]]) (np_amax [[0, 10], [1, 20]]) 3).map
        (fun g => triv_kde.np_exp (triv_kde.score_sample [[0, 10], [1, 20]] 1 "gaussian"
          (List.replicate (num_cols [[0, 10], [1, 20]]) g)))).length = 3 :=
  kde_grid_global_bounds triv_kde [[0, 10], [1, 20]] 3 1 "gaussian"
    (by decide) (by decide) (by decide)

/-- The spec's "lies in [0,1]" for a Python float value: finite and
between 0 and 1. -/
def unit_bounded : PyFloat → Prop
  | .fin v => 0 ≤ v ∧ v ≤ 1
  | _ => False

/-- A scipy stand-in whose jensenshannon always returns +inf (disjoint
supports). -/
def inf_jsd_lib : ExternalLib :=
  { jsd := fun _ _ => .inf, kl := fun _ _ => .fin 0, np_sqrt := fun q => q,
    kde := fun _ => [1] }

/-- A scipy stand-in whose jensenshannon always returns the finite value 1. -/
def fin_jsd_lib : ExternalLib :=
  { jsd := fun _ _ => .fin 1, kl := fun _ _ => .fin 0, np_sqrt := fun q => q,
    kde := fun _ => [1] }

/-- C3 counterexample: when the underlying library divergence is
infinite, `jsd_divergence` does return exactly 1 — but its emitted
warning list is EMPTY: lines 20-25 of batch_effects.py contain no
`warn(...)` call, so no diagnostic warning is emitted, contrary to the
claim. -/
theorem jsd_divergence_inf_no_warning :
    jsd_divergence inf_jsd_lib [1] [0] = (.fin 1, []) := rfl

/-- C3 (amended): the result is exactly 1 when the raw library value is
±inf; the result lies in [0,1] whenever the raw library value does or is
infinite (the function returns a finite raw value unchanged); and NO
diagnostic warning is ever emitted. -/
theorem jsd_divergence_clamp (lib : ExternalLib) (x y : DensitySeq) :
    ((lib.jsd x y = .inf ∨ lib.jsd x y = .ninf) →
      (jsd_divergence lib x y).1 = .fin 1) ∧
    ((unit_bounded (lib.jsd x y) ∨ lib.jsd x y = .inf ∨ lib.jsd x y = .ninf) →
      unit_bounded (jsd_divergence lib x y).1) ∧
    (jsd_divergence lib x y).2 = [] := by
  refine ⟨?_, ?_, ?_⟩
  · rintro (h | h) <;> unfold jsd_divergence <;> rw [h]
  · rintro (hb | h | h)
    · unfold jsd_divergence
      unfold unit_bounded at hb
      cases hj : lib.jsd x y with
      | fin v => rw [hj] at hb; exact hb
      | inf => rw [hj] at hb; exact absurd hb id
      | ninf => rw [hj] at hb; exact absurd hb id
      | nan => rw [hj] at hb; exact absurd hb id
    · unfold jsd_divergence
      rw [h]
      exact ⟨by norm_num, le_rfl⟩
    · unfold jsd_divergence
      rw [h]
      exact ⟨by norm_num, le_rfl⟩
  · unfold jsd_divergence
    cases lib.jsd x y <;> rfl

theorem jsd_divergence_clamp_witness :
    (jsd_divergence inf_jsd_lib [1] [0]).1 = .fin 1 ∧
    unit_bounded (jsd_divergence fin_jsd_lib [1] [1]).1 ∧
    (jsd_divergence inf_jsd_lib [1] [0]).2 = [] :=
  ⟨(jsd_divergence_clamp inf_jsd_lib [1] [0]).1 (Or.inl rfl),
   (jsd_divergence_clamp fin_jsd_lib [1] [1]).2.1
     (Or.inl ⟨by decide, by decide⟩),
   (jsd_divergence_clamp inf_jsd_lib [1] [0]).2.2⟩

/-- A key absent from an appended association list is absent from its
left part. -/
theorem lookup_append_none_left {β : Type} (a b : List (String × β)) (k : String)
    (h : (a ++ b).lookup k = none) : a.lookup k = none := by
  induction a with
  | nil => rfl
  | cons q tl ih =>
    obtain ⟨k1, v1⟩ := q
    rw [List.cons_append] at h
    cases hk : (k == k1) with
    | true => simp [List.lookup, hk] at h
    | false =>
      simp only [List.lookup, hk] at h ⊢
      exact ih h

/-- A key with a successful lookup occurs among the keys. -/
theorem mem_map_fst_of_lookup_isSome {β : Type} (l : List (String × β)) (k : String)
    (h : (l.lookup k).isSome = true) : k ∈ l.map Prod.fst := by
  induction l with
  | nil => simp [List.lookup] at h
  | cons q tl ih =>
    obtain ⟨k1, v1⟩ := q
    cases hk : (k == k1) with
    | true =>
      have hkk : k = k1 := eq_of_beq hk
      subst hkk
      exact List.mem_cons_self _ _
    | false =>
      simp only [List.lookup, hk] at h
      exact List.mem_cons_of_mem _ (ih h)

/-- Characterization of a successful `calc_divergence` call: the cache
after the call is the cache before it (extended by the target's density
when the target was absent), extended by one density per comparison
sample that was absent, and the result list pairs every cache entry with
its divergence from the target. -/
theorem calc_divergence_spec (lib : ExternalLib) (st : SessionState) (target_id : String)
    (comparisons : List String) (method : String) (st2 : SessionState)
    (res : List (String × PyFloat))
    (h : calc_divergence lib st target_id comparisons method = some (st2, res)) :
    ∃ (cache1 : List (String × DensitySeq)) (p : DensitySeq),
      ((cache1 = st.kde_cache ∧ (st.kde_cache.lookup target_id).isSome = true) ∨
        (st.kde_cache.lookup target_id = none ∧
          ∃ t, st.data.lookup target_id = some t ∧
            cache1 = st.kde_cache ++ [(target_id, lib.kde t)])) ∧
      st2.data = st.data ∧
      st2.kde_cache = cache1 ++
        (st.data.filter
          (fun nt => comparisons.contains nt.1 && (cache1.lookup nt.1).isNone)).map
          (fun nt => (nt.1, lib.kde nt.2)) ∧
      st2.kde_cache.lookup target_id = some p ∧
      res = st2.kde_cache.map (fun nq => (nq.1,
        (if method = "jsd" then fun a b => (jsd_divergence lib a b).1
         else if method = "kl" then fun a b => kl_divergence lib a b
         else fun a b => .fin (hellinger_dot lib.np_sqrt a b)) p nq.2)) := by
  unfold calc_divergence at h
  by_cases hm : method ∉ (["jsd", "kl", "hellinger"] : List String)
  · rw [if_pos hm] at h
    exact absurd h (by simp)
  · rw [if_neg hm] at h
    by_cases ht : (st.kde_cache.lookup target_id).isSome
    · rw [if_pos ht] at h
      dsimp only at h
      cases hp : (st.kde_cache ++
          (st.data.filter
            (fun nt => comparisons.contains nt.1 && (st.kde_cache.lookup nt.1).isNone)).map
            (fun nt => (nt.1, lib.kde nt.2))).lookup target_id with
      | none =>
        rw [hp] at h
        exact absurd h (by simp)
      | some p =>
        rw [hp] at h
        simp only [Option.some.injEq, Prod.mk.injEq] at h
        obtain ⟨h1, h2⟩ := h
        subst h1
        refine ⟨st.kde_cache, p, Or.inl ⟨rfl, ht⟩, rfl, rfl, hp, h2.symm⟩
    · rw [if_neg ht] at h
      have htn : st.kde_cache.lookup target_id = none :=
        Option.not_isSome_iff_eq_none.mp ht
      cases hd : st.data.lookup target_id with
      | none =>
        rw [hd] at h
        exact absurd h (by simp)
      | some t =>
        rw [hd] at h
        simp only [Option.map_some'] at h
        cases hp : ((st.kde_cache ++ [(target_id, lib.kde t)]) ++
            (st.data.filter
              (fun nt => comparisons.contains nt.1 &&
                ((st.kde_cache ++ [(target_id, lib.kde t)]).lookup nt.1).isNone)).map
              (fun nt => (nt.1, lib.kde nt.2))).lookup target_id with
        | none =>
          rw [hp] at h
          exact absurd h (by simp)
        | some p =>
          rw [hp] at h
          simp only [Option.some.injEq, Prod.mk.injEq] at h
          obtain ⟨h1, h2⟩ := h
          subst h1
          exact ⟨st.kde_cache ++ [(target_id, lib.kde t)], p,
            Or.inr ⟨htn, t, rfl, rfl⟩, rfl, rfl, hp, h2.symm⟩

/-- C8: a successful divergence computation only appends to the cache:
the old cache survives as a prefix (nothing is overwritten or removed),
every newly added key was absent from the old cache (a density is only
estimated for absent ids), the loaded tables are untouched, and
`load_data` — the explicit reload — is the operation that resets the
cache to empty. -/
theorem calc_divergence_cache_insert_only (lib : ExternalLib) (st : SessionState)
    (target_id : String) (comparisons : List String) (method : String)
    (st2 : SessionState) (res : List (String × PyFloat))
    (h : calc_divergence lib st target_id comparisons method = some (st2, res)) :
    st2.kde_cache.take st.kde_cache.length = st.kde_cache ∧
    ((st2.kde_cache.drop st.kde_cache.length).map Prod.fst).all
      (fun k => (st.kde_cache.lookup k).isNone) = true ∧
    st2.data = st.data ∧
    (load_data st.data).kde_cache = [] := by
  obtain ⟨cache1, p, hcase, hdata, hcache, hp, hres⟩ :=
    calc_divergence_spec lib st target_id comparisons method st2 res h
  rcases hcase with ⟨hc1, ht⟩ | ⟨htn, t, hdl, hc1⟩
  · subst hc1
    refine ⟨?_, ?_, hdata, rfl⟩
    · rw [hcache, List.take_left]
    · rw [hcache, List.drop_left, List.all_eq_true]
      intro k hk
      obtain ⟨q, hq, rfl⟩ := List.mem_map.mp hk
      obtain ⟨nt, hnt, rfl⟩ := List.mem_map.mp hq
      have hcond := (List.mem_filter.mp hnt).2
      rw [Bool.and_eq_true] at hcond
      exact hcond.2
  · subst hc1
    refine ⟨?_, ?_, hdata, rfl⟩
    · rw [hcache, List.append_assoc, List.take_left]
    · rw [hcache, List.append_assoc, List.drop_left, List.map_append, List.all_eq_true]
      intro k hk
      rcases List.mem_append.mp hk with hk1 | hk2
      · simp only [List.map_cons, List.map_nil, List.mem_singleton] at hk1
        subst hk1
        simp [htn]
      · obtain ⟨q, hq, rfl⟩ := List.mem_map.mp hk2
        obtain ⟨nt, hnt, rfl⟩ := List.mem_map.mp hq
        have hcond := (List.mem_filter.mp hnt).2
        rw [Bool.and_eq_true] at hcond
        have h3 := lookup_append_none_left st.kde_cache _ nt.1
          (Option.isNone_iff_eq_none.mp hcond.2)
        simp [h3]

/-- A trivial stand-in for the scipy/numpy externals of batch_effects. -/
def triv_ext : ExternalLib :=
  { jsd := fun _ _ => .fin 0, kl := fun _ _ => .fin 0, np_sqrt := fun q => q,
    kde := fun _ => [1] }

/-- A session with one stale cached sample "old" and loaded tables for
"t" and "c". -/
def demo_state : SessionState :=
  { data := [("t", [[1]]), ("c", [[2]])], kde_cache := [("old", [2])] }

/-- The session state after `calc_divergence` on target "t" with
comparisons ["c"]. -/
def demo_state2 : SessionState :=
  { data := [("t", [[1]]), ("c", [[2]])], kde_cache := [("old", [2]), ("t", [1]), ("c", [1])] }

/-- The result list of that call: one pair per cache entry. -/
def demo_res : List (String × PyFloat) :=
  [("old", .fin 0), ("t", .fin 0), ("c", .fin 0)]

theorem calc_divergence_cache_insert_only_witness :
    demo_state2.kde_cache.take demo_state.kde_cache.length = demo_state.kde_cache ∧
    ((demo_state2.kde_cache.drop demo_state.kde_cache.length).map Prod.fst).all
      (fun k => (demo_state.kde_cache.lookup k).isNone) = true ∧
    demo_state2.data = demo_state.data ∧
    (load_data demo_state.data).kde_cache = [] :=
  calc_divergence_cache_insert_only triv_ext demo_state "t" ["c"] "jsd"
    demo_state2 demo_res (by decide)

/-- C10: the list a successful `calc_divergence` call returns has one
(name, divergence) pair for EVERY entry of the post-call cache, in cache
order — including the pair comparing the target with itself and any
previously cached sample ids that are not among the requested
comparisons — rather than one pair per requested comparison sample. -/
theorem calc_divergence_returns_whole_cache (lib : ExternalLib) (st : SessionState)
    (target_id : String) (comparisons : List String) (method : String)
    (st2 : SessionState) (res : List (String × PyFloat))
    (h : calc_divergence lib st target_id comparisons method = some (st2, res)) :
    res.map Prod.fst = st2.kde_cache.map Prod.fst ∧
    target_id ∈ res.map Prod.fst ∧
    (st.kde_cache.map Prod.fst).all (fun k => (res.map Prod.fst).contains k) = true := by
  obtain ⟨cache1, p, hcase, hdata, hcache, hp, hres⟩ :=
    calc_divergence_spec lib st target_id comparisons method st2 res h
  have hnames : res.map Prod.fst = st2.kde_cache.map Prod.fst := by
    rw [hres, List.map_map]
    rfl
  refine ⟨hnames, ?_, ?_⟩
  · rw [hnames]
    exact mem_map_fst_of_lookup_isSome _ _ (by rw [hp]; rfl)
  · rw [List.all_eq_true]
    intro k hk
    have hk2 : k ∈ st2.kde_cache.map Prod.fst := by
      rw [hcache, List.map_append]
      apply List.mem_append_left
      rcases hcase with ⟨hc1, _⟩ | ⟨_, t, _, hc1⟩
      · rw [hc1]
        exact hk
      · rw [hc1, List.map_append]
        exact List.mem_append_left _ hk
    rw [hnames]
    exact List.elem_eq_true_of_mem hk2

theorem calc_divergence_returns_whole_cache_witness :
    demo_res.map Prod.fst = demo_state2.kde_cache.map Prod.fst ∧
    "t" ∈ demo_res.map Prod.fst ∧
    (demo_state.kde_cache.map Prod.fst).all
      (fun k => (demo_res.map Prod.fst).contains k) = true :=
  calc_divergence_returns_whole_cache triv_ext demo_state "t" ["c"] "jsd"
    demo_state2 demo_res (by decide)
